import Mathlib

/-!
Shallow embedding of the core of `video_comparator.py` (frame pairing,
difference computation, viewport transform, pixel probe), with theorems
checking the natural-language specification against it.

Conventions used throughout:
* 8-bit channel values are `Nat` (with explicit `≤ 255` bounds where needed).
* Pixel coordinates: a `Frame` stores `px x y` with `x` the column and `y` the
  row, matching the `img[y, x]` indexing of the source.
* Python `//` on nonnegative ints is `Nat` division; on possibly negative ints
  it is Lean `Int` division (both floor toward negative infinity), and Python
  `%` on ints is Lean `Int` `%` (both yield a result with the divisor's sign).
* The numpy single-precision arithmetic in the difference computation is
  modelled exactly: every value in that pipeline is a nonnegative rational
  `num / den` below `2 ^ 10`, and one rounding step to binary32
  (round to nearest, ties to even, 24-bit significand) is `rn32nd`, written
  over `Nat` so the kernel can evaluate it.  The result is a dyadic pair
  `(a, s)` denoting `a / 2 ^ s`.
* `cv2.resize` (bilinear resampling) is an external collaborator of the
  functions modelled here; where a modelled function calls it, the model takes
  the resampler as an explicit function argument and no theorem depends on its
  values.
* Python code that can raise (list indexing) is modelled with `Except`; an
  `Except.error` value marks a raised `IndexError`.
-/

namespace VideoComparator

/-- `np.clip` on integers: `min (max x lo) hi`.  Note numpy applies the upper
bound last, so when `lo > hi` the result is `hi`. -/
def npClip (x lo hi : Int) : Int := min (max x lo) hi

/-- `np.clip` on rationals (clipping of floating-point values whose
comparisons are exact). -/
def npClipQ (x lo hi : ℚ) : ℚ := min (max x lo) hi

/-- Fuel-driven floor of the binary logarithm of a positive natural number
(structural recursion, so the kernel can evaluate it). -/
def log2fuel : Nat → Nat → Nat
  | 0, _ => 0
  | fuel + 1, n => if n < 2 then 0 else log2fuel fuel (n / 2) + 1

/-- `⌊log2 n⌋` for `0 < n < 2 ^ 128`. -/
def log2n (n : Nat) : Nat := log2fuel 128 n

/-- Floor of the binary logarithm of `num / den`, for `1 ≤ num`, `1 ≤ den`
and `2 ^ (-64) ≤ num / den < 2 ^ 64`: scale by `2 ^ 64`, truncate, take the
integer log. -/
def floorLog2Q (num den : Nat) : Int := (log2n (num * 2 ^ 64 / den) : Int) - 64

/-- One IEEE-754 binary32 rounding (round to nearest, ties to even) of the
nonnegative rational `num / den`, valid on the normal range below `2 ^ 10`
(all values reachable in the difference pipeline lie there).  Returns
`(a, s)` denoting the dyadic rational `a / 2 ^ s` with `a` of at most 25
bits. -/
def rn32nd (num den : Nat) : Nat × Nat :=
  if num = 0 then (0, 0)
  else
    let e := floorLog2Q num den
    let s := (23 - e).toNat
    let qn := num * 2 ^ s
    let fl := qn / den
    let r2 := 2 * (qn % den)
    let n := if r2 < den then fl
             else if den < r2 then fl + 1
             else if fl % 2 = 0 then fl else fl + 1
    (n, s)

/-- A pixel: an RGB triple of 8-bit channel values. -/
def Pixel := Nat × Nat × Nat

instance : DecidableEq Pixel := by
  unfold Pixel
  infer_instance

/-- A pixel whose three channels are genuine 8-bit values. -/
def U8Pixel (p : Pixel) : Prop := p.1 ≤ 255 ∧ p.2.1 ≤ 255 ∧ p.2.2 ≤ 255

instance (p : Pixel) : Decidable (U8Pixel p) := by
  unfold U8Pixel
  infer_instance

/-- `cv2.absdiff` on one 8-bit channel: `|a - b|`. -/
def absdiffU8 (a b : Nat) : Nat := max a b - min a b

/-- `np.max(diff_uint, axis=2)`: Chebyshev distance of two pixels, the maximum
of the three per-channel absolute differences. -/
def chebyshev (a b : Pixel) : Nat :=
  max (absdiffU8 a.1 b.1) (max (absdiffU8 a.2.1 b.2.1) (absdiffU8 a.2.2 b.2.2))

/-- The per-pixel difference raster value as a function of the Chebyshev
magnitude `m`, following `get_frame_triplet` lines 219-227 of the source:
`mag = float32(m) / 255.0`, then `np.clip(mag, 0.0, 1.0)` (the lower bound is
vacuous on nonnegative values, the upper bound is `min` with `1 = 2 ^ s / 2 ^ s`);
red `= (mag * 255).astype(np.uint8)`, green `= 0`,
blue `= ((1.0 - mag) * 255).astype(np.uint8)`.
Each arithmetic operation is rounded to binary32 by `rn32nd` exactly as numpy
computes it, and `astype(np.uint8)` is truncation toward zero, here `Nat`
division by the dyadic denominator. -/
def pixelOfMag (m : Nat) : Pixel :=
  let p := rn32nd m 255
  let s := p.2
  let a := min p.1 (2 ^ s)
  let r := rn32nd (255 * a) (2 ^ s)
  let t := rn32nd (2 ^ s - a) (2 ^ s)
  let c := rn32nd (255 * t.1) (2 ^ t.2)
  (r.1 / 2 ^ r.2, 0, c.1 / 2 ^ c.2)

/-- The per-pixel difference computation of `get_frame_triplet`: the value of
`diff_rgb` at one pixel as a function of the two source pixels. -/
def diffPixel (a b : Pixel) : Pixel := pixelOfMag (chebyshev a b)

/-- A raster frame: explicit width/height and a pixel lookup
(`px x y` with `x` the column, `y` the row). -/
structure Frame where
  width : Nat
  height : Nat
  px : Nat → Nat → Pixel

/-- The difference raster of two equally sized frames (`diff_rgb` in
`get_frame_triplet`): `diffPixel` applied at every pixel, on a raster of the
first frame's dimensions. -/
def computeDiff (a b : Frame) : Frame :=
  Frame.mk a.width a.height (fun x y => diffPixel (a.px x y) (b.px x y))

/-- A solid-color frame. -/
def solid (w h : Nat) (p : Pixel) : Frame := Frame.mk w h (fun _ _ => p)

/-- The info dictionary produced by the loader collaborators
(`load_video` / `load_images_from_folder`): frames plus declared size and
count. -/
structure SeqInfo where
  frames : List Frame
  width : Nat
  height : Nat
  count : Nat

/-- The state of the `VideoComparator` object: the two frame sequences, their
info dictionaries, and the current-index cursor. -/
structure Comparator where
  ref_frames : List Frame
  comp_frames : List Frame
  ref_info : Option SeqInfo
  comp_info : Option SeqInfo
  current_frame_idx : Nat

/-- `VideoComparator.set_ref` (lines 179-182): replace the reference frames
and info.  It touches nothing else; in particular the cursor
`current_frame_idx` is left as it was. -/
def set_ref (s : Comparator) (info : SeqInfo) : Comparator :=
  Comparator.mk info.frames s.comp_frames (some info) s.comp_info s.current_frame_idx

/-- `VideoComparator.set_comp` (lines 184-187): replace the comparison frames
and info, leaving everything else (including the cursor) as it was. -/
def set_comp (s : Comparator) (info : SeqInfo) : Comparator :=
  Comparator.mk s.ref_frames info.frames s.ref_info (some info) s.current_frame_idx

/-- The result dictionary of `get_pixel_info`. -/
structure PixelInfo where
  x : Int
  y : Int
  img1 : Pixel
  img2 : Pixel

/-- `VideoComparator.get_pixel_info` (lines 231-256).  `resize` is the
`cv2.resize` collaborator (arguments: frame, target width, target height).
Python list indexing `self.ref_frames[idx]` / `self.comp_frames[idx]` raises
`IndexError` when the list is shorter than the cursor; that is the
`Except.error` branch. -/
def get_pixel_info (resize : Frame → Nat → Nat → Frame) (s : Comparator)
    (x y : Int) : Except String (Option PixelInfo) :=
  match s.ref_info with
  | none => Except.ok none
  | some info =>
    if 0 ≤ x ∧ x < (info.width : Int) ∧ 0 ≤ y ∧ y < (info.height : Int) then
      match s.ref_frames.get? s.current_frame_idx,
            s.comp_frames.get? s.current_frame_idx with
      | some ref, some comp_raw =>
        let comp_resized :=
          if comp_raw.height = info.height ∧ comp_raw.width = info.width then comp_raw
          else resize comp_raw info.width info.height
        Except.ok (some (PixelInfo.mk x y (ref.px x.toNat y.toNat)
          (comp_resized.px x.toNat y.toNat)))
      | _, _ => Except.error "IndexError: list index out of range"
    else Except.ok none

/-- The per-axis crop/pan arithmetic of `_zoom_in1` (lines 783-800), for one
dimension of the (already rotated) image.  `dim` is the image extent on this
axis, `crop` the crop-window extent.  Fields: `clamped` is the pan value
written back into the viewport state; `[start, stop)` is the slice taken from
the image; `[pasteStart, pasteStop)` is where that slice lands in the scratch
buffer. -/
structure AxisCrop where
  clamped : Int
  start : Int
  stop : Int
  pasteStart : Int
  pasteStop : Int

/-- One axis of `_zoom_in1`: `img_c = dim // 2`; the pan is clamped by
`np.clip(pan, -img_c + crop // 2, img_c - crop // 2)`; the crop slice is
`[max(0, center - crop // 2), center + crop // 2)` around the panned center,
and it is pasted centered into the buffer,
`[crop // 2 - actual // 2, crop // 2 + actual // 2)`. -/
def axisCrop (pan : Int) (dim crop : Nat) : AxisCrop :=
  let imgC : Int := (dim / 2 : Nat)
  let halfCrop : Int := (crop / 2 : Nat)
  let clamped := npClip pan (-imgC + halfCrop) (imgC - halfCrop)
  let center := imgC + clamped
  let start := max 0 (center - halfCrop)
  let stop := center + halfCrop
  let actual := stop - start
  AxisCrop.mk clamped start stop (halfCrop - actual / 2) (halfCrop + actual / 2)

/-- Channel accessor for a pixel, indexed 0 = red, 1 = green, 2 = blue
(the last axis of the numpy buffer). -/
def channel (p : Pixel) : Nat → Nat
  | 0 => p.1
  | 1 => p.2.1
  | _ => p.2.2

/-- The outcome of one `_zoom_in1` call: the pan written back into the shared
viewport state, the scratch-buffer shape tag, whether the buffer was
reallocated, and the scratch-buffer contents after the crop was pasted
(indexed row, column, channel). -/
structure RenderResult where
  panX : Int
  panY : Int
  shape : Nat × Nat × Nat
  reallocated : Bool
  buf : Nat → Nat → Nat → Nat

/-- `_zoom_in1` (lines 768-800), up to but excluding the final
nearest-neighbor upscale of the filled buffer to the label size: the crop
sizes `cropH, cropW` are the already computed even window extents, `img` the
already rotated frame, `prevShape`/`prevBuf` the scratch-buffer state from the
preceding call (`None` before the first call).  The buffer is reallocated
exactly when `prevShape` differs from the target shape `(cropH, cropW, 3)`;
either way every cell starts from zero (a fresh `np.zeros` or the in-place
`buf[:] = 0`), so `prevBuf` never shows through, and the crop slice is then
pasted over the window `[pasteStart, pasteStop)` of each axis. -/
def zoomIn1 (img : Frame) (panX panY : Int) (cropH cropW : Nat)
    (prevShape : Option (Nat × Nat × Nat)) (prevBuf : Nat → Nat → Nat → Nat) :
    RenderResult :=
  let tgt : Nat × Nat × Nat := (cropH, cropW, 3)
  let zeroed : Nat → Nat → Nat → Nat := fun _ _ _ => 0
  let ach := axisCrop panY img.height cropH
  let acw := axisCrop panX img.width cropW
  let buf : Nat → Nat → Nat → Nat := fun i j c =>
    if ach.pasteStart ≤ (i : Int) ∧ (i : Int) < ach.pasteStop ∧
       acw.pasteStart ≤ (j : Int) ∧ (j : Int) < acw.pasteStop then
      channel (img.px (acw.start + ((j : Int) - acw.pasteStart)).toNat
        (ach.start + ((i : Int) - ach.pasteStart)).toNat) c
    else zeroed i j c
  RenderResult.mk acw.clamped ach.clamped tgt (decide (prevShape ≠ some tgt)) buf

/-- The mutable fields of `VideoComparatorApp` the viewport claims touch. -/
structure AppState where
  zoom : ℚ
  pan_x : Int
  pan_y : Int
  rotation_angle : Int

/-- The `zoom_delta` property (lines 411-413): `np.clip(zoom / 10, 0.1, 0.4)`. -/
def zoom_delta (zoom : ℚ) : ℚ := npClipQ (zoom / 10) (1 / 10) (4 / 10)

/-- `on_zoom_requested` (lines 860-869): replace the requested delta by
`±zoom_delta` according to its sign, then store
`max(0.1, min(8.0, zoom + delta))`. -/
def on_zoom_requested (s : AppState) (delta : ℚ) : AppState :=
  let d := if 0 < delta then zoom_delta s.zoom else -zoom_delta s.zoom
  AppState.mk (max (1 / 10) (min 8 (s.zoom + d))) s.pan_x s.pan_y s.rotation_angle

/-- `fit_to_screen` (lines 934-948): swap the label extents when the rotation
is 90 or 270, store `zoom = min(out_w / ref_w, out_h / ref_h)` (with no
further clamp) and reset the pan to `(0, 0)`. -/
def fit_to_screen (s : AppState) (lblW lblH refW refH : ℚ) : AppState :=
  let wh : ℚ × ℚ :=
    if s.rotation_angle = 90 ∨ s.rotation_angle = 270 then (lblH, lblW) else (lblW, lblH)
  AppState.mk (min (wh.1 / refW) (wh.2 / refH)) 0 0 s.rotation_angle

/-- `_reset_pan_and_refresh` (lines 906-910): set the pan to `(0, 0)`; the
resulting state is the one the subsequent refresh renders with. -/
def reset_pan_and_refresh (s : AppState) : AppState :=
  AppState.mk s.zoom 0 0 s.rotation_angle

/-- `rotate_left` (lines 912-916): `rotation_angle = (rotation_angle - 90) % 360`,
then reset pan and refresh. -/
def rotate_left (s : AppState) : AppState :=
  reset_pan_and_refresh (AppState.mk s.zoom s.pan_x s.pan_y ((s.rotation_angle - 90) % 360))

/-- `rotate_right` (lines 918-922): `rotation_angle = (rotation_angle + 90) % 360`,
then reset pan and refresh. -/
def rotate_right (s : AppState) : AppState :=
  reset_pan_and_refresh (AppState.mk s.zoom s.pan_x s.pan_y ((s.rotation_angle + 90) % 360))

/-- `reset_rotation` (lines 924-928): `rotation_angle = 0`, then reset pan and
refresh. -/
def reset_rotation (s : AppState) : AppState :=
  reset_pan_and_refresh (AppState.mk s.zoom s.pan_x s.pan_y 0)

/-- The aspect-preserving fit scale of `_emit_pixel` (line 352):
`min(lbl_w / img_w, lbl_h / img_h)`. -/
def fitScale (imgW imgH lblW lblH : ℚ) : ℚ := min (lblW / imgW) (lblH / imgH)

/-- Horizontal letterbox offset of `_emit_pixel` (line 355). -/
def fitOffsetX (imgW imgH lblW lblH : ℚ) : ℚ :=
  (lblW - imgW * fitScale imgW imgH lblW lblH) / 2

/-- Vertical letterbox offset of `_emit_pixel` (line 356). -/
def fitOffsetY (imgW imgH lblW lblH : ℚ) : ℚ :=
  (lblH - imgH * fitScale imgW imgH lblW lblH) / 2

/-- Display-to-image x coordinate of `_emit_pixel` (line 359). -/
def invMapX (px imgW imgH lblW lblH : ℚ) : ℚ :=
  (px - fitOffsetX imgW imgH lblW lblH) / fitScale imgW imgH lblW lblH

/-- Display-to-image y coordinate of `_emit_pixel` (line 360). -/
def invMapY (py imgW imgH lblW lblH : ℚ) : ℚ :=
  (py - fitOffsetY imgW imgH lblW lblH) / fitScale imgW imgH lblW lblH

/-- `_emit_pixel` (lines 335-364): inverse-map the widget-space point through
the aspect-preserving fit, and emit the image coordinate exactly when it lies
inside the raster bounds.  Python's `int()` truncates toward zero, which on
this branch (where `0 ≤ x` and `0 ≤ y`) is the floor. -/
def emit_pixel (px py imgW imgH lblW lblH : ℚ) : Option (Int × Int) :=
  if imgW = 0 ∨ imgH = 0 then none
  else
    let x := invMapX px imgW imgH lblW lblH
    let y := invMapY py imgW imgH lblW lblH
    if 0 ≤ x ∧ x < imgW ∧ 0 ≤ y ∧ y < imgH then some (⌊x⌋, ⌊y⌋) else none

/-- A 100 × 100 source frame, as in the worked pan-clamp example. -/
def img100 : Frame := solid 100 100 (0, 0, 0)

/-- A 4 × 4 frame of nonzero pixels, for scratch-buffer checks. -/
def img4 : Frame := solid 4 4 (7, 7, 7)

/-- An all-zero scratch buffer. -/
def zeroScratch : Nat → Nat → Nat → Nat := fun _ _ _ => 0

/-- A scratch buffer full of stale nonzero values. -/
def staleScratch : Nat → Nat → Nat → Nat := fun _ _ _ => 9

/-- The comparator state reached by loading only a reference (one 4 × 4
frame) while the comparison sequence is still absent. -/
def refOnlyState : Comparator :=
  Comparator.mk [solid 4 4 (0, 0, 0)] []
    (some (SeqInfo.mk [solid 4 4 (0, 0, 0)] 4 4 1)) none 0

/-! ## Helper lemmas -/

theorem npClip_le_right (x lo hi : Int) : npClip x lo hi ≤ hi := by
  unfold npClip
  omega

theorem le_npClip (x lo hi : Int) (h : lo ≤ hi) : lo ≤ npClip x lo hi := by
  unfold npClip
  omega

theorem chebyshev_self (p : Pixel) : chebyshev p p = 0 := by
  unfold chebyshev absdiffU8
  omega

theorem chebyshev_le_255 (p q : Pixel) (hp : U8Pixel p) (hq : U8Pixel q) :
    chebyshev p q ≤ 255 := by
  unfold U8Pixel at hp hq
  unfold chebyshev absdiffU8
  omega

theorem chebyshev_eq_255 (p q : Pixel) (hp : U8Pixel p) (hq : U8Pixel q)
    (h : absdiffU8 p.1 q.1 = 255 ∨ absdiffU8 p.2.1 q.2.1 = 255 ∨
      absdiffU8 p.2.2 q.2.2 = 255) : chebyshev p q = 255 := by
  unfold U8Pixel at hp hq
  unfold chebyshev absdiffU8 at *
  omega

set_option maxRecDepth 4000 in
/-- The full value table of the per-pixel difference pipeline: the red channel
reproduces the magnitude exactly, the green channel is zero, and the blue
channel is either `255 - m` (the exact value) or `254 - m` (one short, when
the binary32 value of `(1 - m / 255) * 255` falls just below the integer and
the `uint8` cast truncates it). -/
theorem pixelOfMag_table : ∀ m : Fin 256,
    (pixelOfMag m.val).1 = m.val ∧ (pixelOfMag m.val).2.1 = 0 ∧
      ((pixelOfMag m.val).2.2 = 255 - m.val ∨ (pixelOfMag m.val).2.2 = 254 - m.val) := by
  decide

/-! ## Claim theorems -/

/-- C1: on every render call in which the crop window fits inside the rotated
image (`cropH ≤ rotatedHeight`, `cropW ≤ rotatedWidth`), the pan offsets are
clamped into `[-halfImg + crop/2, halfImg - crop/2]` per axis (halves are the
floor halves the source computes with `//`), the clamped values are the ones
written back into the shared viewport state, and in particular a 100 × 100
source with `cropW = cropH = 50` clamps a requested `panX = 1000` to `25`. -/
theorem c1_pan_clamp_law (img : Frame) (panX panY : Int) (cropH cropW : Nat)
    (prevShape : Option (Nat × Nat × Nat)) (prevBuf : Nat → Nat → Nat → Nat)
    (hH : cropH ≤ img.height) (hW : cropW ≤ img.width) :
    (zoomIn1 img panX panY cropH cropW prevShape prevBuf).panY =
      npClip panY (-(↑(img.height / 2) : Int) + ↑(cropH / 2))
        ((↑(img.height / 2) : Int) - ↑(cropH / 2)) ∧
    (zoomIn1 img panX panY cropH cropW prevShape prevBuf).panX =
      npClip panX (-(↑(img.width / 2) : Int) + ↑(cropW / 2))
        ((↑(img.width / 2) : Int) - ↑(cropW / 2)) ∧
    -(↑(img.height / 2) : Int) + ↑(cropH / 2) ≤
      (zoomIn1 img panX panY cropH cropW prevShape prevBuf).panY ∧
    (zoomIn1 img panX panY cropH cropW prevShape prevBuf).panY ≤
      (↑(img.height / 2) : Int) - ↑(cropH / 2) ∧
    -(↑(img.width / 2) : Int) + ↑(cropW / 2) ≤
      (zoomIn1 img panX panY cropH cropW prevShape prevBuf).panX ∧
    (zoomIn1 img panX panY cropH cropW prevShape prevBuf).panX ≤
      (↑(img.width / 2) : Int) - ↑(cropW / 2) ∧
    (zoomIn1 img100 1000 1000 50 50 none zeroScratch).panX = 25 := by
  have hh : (cropH / 2 : Nat) ≤ img.height / 2 := Nat.div_le_div_right hH
  have hw : (cropW / 2 : Nat) ≤ img.width / 2 := Nat.div_le_div_right hW
  refine ⟨rfl, rfl, ?_, ?_, ?_, ?_, by decide⟩ <;>
    simp only [zoomIn1, axisCrop, npClip] <;> omega

/-- Witness for C1: the spec's worked pan-clamp example, with the fit
hypotheses discharged for the 100 × 100 source and 50 × 50 crop window. -/
theorem c1_witness :
    50 ≤ img100.height ∧ 50 ≤ img100.width ∧
    (zoomIn1 img100 1000 1000 50 50 none zeroScratch).panX = 25 :=
  ⟨by decide, by decide,
    (c1_pan_clamp_law img100 1000 1000 50 50 none zeroScratch (by decide)
      (by decide)).2.2.2.2.2.2⟩

/-- C4 counterexample: a render call on a 100-pixel-tall image with
`cropH = 150 > 100` stores pan value `-25`, not `0` — `np.clip` with a lower
bound above the upper bound returns the upper bound `img_c - crop // 2`, so
the claim that the pan written back collapses to `0` is false. -/
theorem c4_counterexample :
    img100.height < 150 ∧
    (zoomIn1 img100 0 0 150 150 none zeroScratch).panY = -25 ∧
    (zoomIn1 img100 0 0 150 150 none zeroScratch).panY ≠ 0 := by
  refine ⟨by decide, by decide, by decide⟩

/-- C4 (amended): when the crop window exceeds the rotated image on an axis
(`dim < crop`, with `crop` even as the source always produces), the valid pan
range is empty and the pan written back is the upper clamp bound
`dim // 2 - crop // 2` (nonpositive, in general nonzero) rather than `0`; the
crop taken is rows `[0, 2 * (dim // 2))` — the whole image up to a possibly
dropped last odd row — and it is pasted centered into the scratch buffer:
the paste window `[crop // 2 - dim // 2, crop // 2 + dim // 2)` is symmetric
about the buffer midline (`pasteStart + pasteStop = crop`), so the image is
fully visible and centered in the output crop buffer. -/
theorem c4_degenerate_centered (pan : Int) (dim crop : Nat)
    (heven : 2 ∣ crop) (hlt : dim < crop) :
    (axisCrop pan dim crop).clamped = (↑(dim / 2) : Int) - ↑(crop / 2) ∧
    (axisCrop pan dim crop).start = 0 ∧
    (axisCrop pan dim crop).stop = 2 * ↑(dim / 2) ∧
    (axisCrop pan dim crop).pasteStart = (↑(crop / 2) : Int) - ↑(dim / 2) ∧
    (axisCrop pan dim crop).pasteStop = (↑(crop / 2) : Int) + ↑(dim / 2) ∧
    (axisCrop pan dim crop).pasteStart + (axisCrop pan dim crop).pasteStop =
      (↑crop : Int) := by
  simp only [axisCrop, npClip]
  omega

/-- Witness for C4 (amended), at the counterexample's own numbers: image
extent 100, crop 150. -/
theorem c4_witness :
    (2 ∣ 150) ∧ 100 < 150 ∧
    (axisCrop 0 100 150).pasteStart + (axisCrop 0 100 150).pasteStop = 150 :=
  ⟨by decide, by decide, (c4_degenerate_centered 0 100 150 (by decide) (by decide)).2.2.2.2.2⟩

/-- C6: on every render call the scratch buffer is reallocated exactly when
the required shape `(cropH, cropW, 3)` differs from its current shape, and it
is zeroed before the crop is pasted: whatever the previous buffer held, every
cell outside the pasted crop overlap reads as zero — two consecutive calls
with unchanged shape can never leave stale pixels. -/
theorem c6_scratch_buffer_discipline (img : Frame) (panX panY : Int)
    (cropH cropW : Nat) (prevShape : Option (Nat × Nat × Nat))
    (prevBuf : Nat → Nat → Nat → Nat) :
    ((zoomIn1 img panX panY cropH cropW prevShape prevBuf).reallocated = true ↔
        prevShape ≠ some (cropH, cropW, 3)) ∧
    ∀ i j c : Nat,
      ¬((axisCrop panY img.height cropH).pasteStart ≤ (i : Int) ∧
          (i : Int) < (axisCrop panY img.height cropH).pasteStop ∧
          (axisCrop panX img.width cropW).pasteStart ≤ (j : Int) ∧
          (j : Int) < (axisCrop panX img.width cropW).pasteStop) →
        (zoomIn1 img panX panY cropH cropW prevShape prevBuf).buf i j c = 0 := by
  constructor
  · simp [zoomIn1]
  · intro i j c h
    simp only [zoomIn1]
    exact if_neg h

/-- Witness for C6: a second render call whose shape `(8, 8, 3)` matches the
previous one, over a stale all-9 buffer, with a 4 × 4 image letterboxed into
an 8 × 8 crop window: the corner cell, outside the paste overlap, reads 0. -/
theorem c6_witness :
    (zoomIn1 img4 0 0 8 8 (some (8, 8, 3)) staleScratch).buf 0 0 0 = 0 :=
  (c6_scratch_buffer_discipline img4 0 0 8 8 (some (8, 8, 3)) staleScratch).2
    0 0 0 (by decide)

/-- C2 counterexample: for the 1 × 1 frames with pixels `(65, 0, 0)` and
`(0, 0, 0)` the magnitude is `65`, and `computeDiff` outputs blue `= 189`,
whereas the claimed formula `round((1 - mag) * 255)` gives `190`: the source
truncates the binary32 value `189.99998...` with `astype(np.uint8)` instead of
rounding it. -/
theorem c2_counterexample :
    (computeDiff (solid 1 1 (65, 0, 0)) (solid 1 1 (0, 0, 0))).px 0 0 =
      (65, 0, 189) ∧
    round (((1 : ℚ) - 65 / 255) * 255) = 190 ∧ (189 : Nat) ≠ 190 := by
  refine ⟨by decide, ?_, by decide⟩
  have h : ((1 : ℚ) - 65 / 255) * 255 = 190 := by norm_num
  rw [h]
  simp

/-- C2 (amended): at every pixel of two equally sized 8-bit frames,
`computeDiff` sets red `= round(mag * 255)` (which the binary32 pipeline
reproduces exactly as the Chebyshev magnitude `m`) and green `= 0`; the blue
channel is `(1 - mag) * 255` computed in binary32 and truncated (not rounded)
by `astype(np.uint8)`, which yields `255 - m` or falls one short at `254 - m`
(for 159 of the 256 magnitudes). -/
theorem c2_diff_raster_formula (fa fb : Frame) (x y : Nat)
    (ha : U8Pixel (fa.px x y)) (hb : U8Pixel (fb.px x y)) :
    ((computeDiff fa fb).px x y).1 = chebyshev (fa.px x y) (fb.px x y) ∧
    ((computeDiff fa fb).px x y).2.1 = 0 ∧
    (((computeDiff fa fb).px x y).2.2 = 255 - chebyshev (fa.px x y) (fb.px x y) ∨
      ((computeDiff fa fb).px x y).2.2 = 254 - chebyshev (fa.px x y) (fb.px x y)) := by
  have hle : chebyshev (fa.px x y) (fb.px x y) ≤ 255 := chebyshev_le_255 _ _ ha hb
  have ht := pixelOfMag_table ⟨chebyshev (fa.px x y) (fb.px x y), by omega⟩
  simpa [computeDiff, diffPixel] using ht

/-- Witness for C2 (amended): solid 1 × 1 frames with pixels `(200, 0, 0)`
and `(0, 0, 0)`. -/
theorem c2_witness :
    U8Pixel ((solid 1 1 (200, 0, 0)).px 0 0) ∧
    U8Pixel ((solid 1 1 (0, 0, 0)).px 0 0) ∧
    ((computeDiff (solid 1 1 (200, 0, 0)) (solid 1 1 (0, 0, 0))).px 0 0).1 =
      chebyshev ((solid 1 1 (200, 0, 0)).px 0 0) ((solid 1 1 (0, 0, 0)).px 0 0) :=
  ⟨by decide, by decide,
    (c2_diff_raster_formula (solid 1 1 (200, 0, 0)) (solid 1 1 (0, 0, 0)) 0 0
      (by decide) (by decide)).1⟩

/-- C8: `computeDiff` of a frame with itself is exactly `(0, 0, 255)` at
every pixel; and whenever two 8-bit pixels differ by the maximum channel
value 255 in some channel (as with solid pure red against solid pure blue),
the diff pixel is exactly `(255, 0, 0)`. -/
theorem c8_diff_endpoints :
    (∀ (f : Frame) (x y : Nat), (computeDiff f f).px x y = (0, 0, 255)) ∧
    (∀ (fa fb : Frame) (x y : Nat), U8Pixel (fa.px x y) → U8Pixel (fb.px x y) →
      (absdiffU8 (fa.px x y).1 (fb.px x y).1 = 255 ∨
        absdiffU8 (fa.px x y).2.1 (fb.px x y).2.1 = 255 ∨
        absdiffU8 (fa.px x y).2.2 (fb.px x y).2.2 = 255) →
      (computeDiff fa fb).px x y = (255, 0, 0)) := by
  constructor
  · intro f x y
    show diffPixel (f.px x y) (f.px x y) = (0, 0, 255)
    unfold diffPixel
    rw [chebyshev_self]
    decide
  · intro fa fb x y ha hb h
    show diffPixel (fa.px x y) (fb.px x y) = (255, 0, 0)
    unfold diffPixel
    rw [chebyshev_eq_255 _ _ ha hb h]
    decide

/-- Witness for C8: identical solid red 4 × 4 frames diff to `(0, 0, 255)`,
and solid pure red against solid pure blue (channel difference 255) diffs to
`(255, 0, 0)`, checked at pixel `(1, 2)`. -/
theorem c8_witness :
    (computeDiff (solid 4 4 (255, 0, 0)) (solid 4 4 (255, 0, 0))).px 1 2 =
      (0, 0, 255) ∧
    (computeDiff (solid 4 4 (255, 0, 0)) (solid 4 4 (0, 0, 255))).px 1 2 =
      (255, 0, 0) :=
  ⟨c8_diff_endpoints.1 (solid 4 4 (255, 0, 0)) 1 2,
    c8_diff_endpoints.2 (solid 4 4 (255, 0, 0)) (solid 4 4 (0, 0, 255)) 1 2
      (by decide) (by decide) (by decide)⟩

/-- C3 (code bug): with a reference loaded but the comparison sequence still
absent, `get_pixel_info(0, 0)` passes the reference-info and bounds guards and
then indexes `self.comp_frames[0]` on the empty list, raising `IndexError`
instead of returning the `None` sentinel the spec's propagation policy
promises — whatever the resize collaborator does. -/
theorem c3_pixel_info_raises (resize : Frame → Nat → Nat → Frame) :
    get_pixel_info resize refOnlyState 0 0 =
      Except.error "IndexError: list index out of range" := rfl

/-- C9 counterexample: starting from a comparator whose cursor is 3, both
`set_ref` and `set_comp` leave the cursor at 3 — they do not reset it to 0 as
claimed (the reset happens later in the UI-level load path, via
`_reset_state_after_load` driving `get_frame_triplet(0)`). -/
theorem c9_counterexample :
    (set_ref (Comparator.mk [] [] none none 3) (SeqInfo.mk [] 4 4 0)).current_frame_idx = 3 ∧
    (set_comp (Comparator.mk [] [] none none 3) (SeqInfo.mk [] 4 4 0)).current_frame_idx = 3 ∧
    (3 : Nat) ≠ 0 := by
  refine ⟨rfl, rfl, by decide⟩

/-- C9 (amended): `set_ref` and `set_comp` replace the respective sequence
and info and touch nothing else — in particular the current-index cursor is
left unchanged (it is reset to 0 only by the surrounding load path, not by
these setters). -/
theorem c9_setters_replace_only (s : Comparator) (info : SeqInfo) :
    (set_ref s info).ref_frames = info.frames ∧
    (set_ref s info).ref_info = some info ∧
    (set_ref s info).comp_frames = s.comp_frames ∧
    (set_ref s info).current_frame_idx = s.current_frame_idx ∧
    (set_comp s info).comp_frames = info.frames ∧
    (set_comp s info).comp_info = some info ∧
    (set_comp s info).ref_frames = s.ref_frames ∧
    (set_comp s info).current_frame_idx = s.current_frame_idx :=
  ⟨rfl, rfl, rfl, rfl, rfl, rfl, rfl, rfl⟩

/-- C5 counterexample: `fit_to_screen` stores the raw fit ratio without the
`[0.1, 8.0]` clamp: a 4 × 4 reference in a 400 × 300 label stores zoom 75,
far above 8. -/
theorem c5_counterexample :
    (fit_to_screen (AppState.mk 1 0 0 0) 400 300 4 4).zoom = 75 ∧
    ¬((fit_to_screen (AppState.mk 1 0 0 0) 400 300 4 4).zoom ≤ 8) := by
  have h : (fit_to_screen (AppState.mk 1 0 0 0) 400 300 4 4).zoom = 75 := by
    simp only [fit_to_screen]
    norm_num [min_def]
  refine ⟨h, ?_⟩
  rw [h]
  norm_num

/-- C5 (amended): every wheel/keyboard zoom request stores a zoom inside
`[0.1, 8.0]` whatever the requested delta; `fit_to_screen`, however, stores
the unclamped ratio `min(out_w / ref_w, out_h / ref_h)`, which can fall
outside that range. -/
theorem c5_zoom_request_clamped (s : AppState) (delta : ℚ) :
    1 / 10 ≤ (on_zoom_requested s delta).zoom ∧
      (on_zoom_requested s delta).zoom ≤ 8 := by
  constructor
  · exact le_max_left _ _
  · exact max_le (by norm_num) (min_le_left _ _)

/-- C7: `_emit_pixel` inverse-maps a display point through the
aspect-preserving fit (`scale = min(lblW / rasterW, lblH / rasterH)`,
centering offsets `(label - displayed) / 2`) and reports a hit exactly when
the mapped point `(ix, iy)` satisfies `0 ≤ ix < rasterW` and
`0 ≤ iy < rasterH`; for a 200 × 100 raster in a 400 × 100 label, the click at
`(150, 50)` maps to image point `(50, 50)` and the click at `(50, 50)` (in
the letterbox margin) reports no hit. -/
theorem c7_map_display_to_image (px py imgW imgH lblW lblH : ℚ)
    (hW : 0 < imgW) (hH : 0 < imgH) :
    (emit_pixel px py imgW imgH lblW lblH =
      if 0 ≤ invMapX px imgW imgH lblW lblH ∧ invMapX px imgW imgH lblW lblH < imgW ∧
         0 ≤ invMapY py imgW imgH lblW lblH ∧ invMapY py imgW imgH lblW lblH < imgH
      then some (⌊invMapX px imgW imgH lblW lblH⌋, ⌊invMapY py imgW imgH lblW lblH⌋)
      else none) ∧
    emit_pixel 150 50 200 100 400 100 = some (50, 50) ∧
    emit_pixel 50 50 200 100 400 100 = none := by
  refine ⟨?_, ?_, ?_⟩
  · unfold emit_pixel
    rw [if_neg]
    push_neg
    exact ⟨ne_of_gt hW, ne_of_gt hH⟩
  · have hs : fitScale 200 100 400 100 = 1 := by
      unfold fitScale
      norm_num [min_def]
    have hx : invMapX 150 200 100 400 100 = 50 := by
      unfold invMapX fitOffsetX
      rw [hs]
      norm_num
    have hy : invMapY 50 200 100 400 100 = 50 := by
      unfold invMapY fitOffsetY
      rw [hs]
      norm_num
    unfold emit_pixel
    rw [if_neg (by norm_num)]
    rw [hx, hy]
    rw [if_pos (by norm_num)]
    norm_num
  · have hs : fitScale 200 100 400 100 = 1 := by
      unfold fitScale
      norm_num [min_def]
    have hx : invMapX 50 200 100 400 100 = -50 := by
      unfold invMapX fitOffsetX
      rw [hs]
      norm_num
    unfold emit_pixel
    rw [if_neg (by norm_num)]
    rw [if_neg]
    rw [hx]
    intro hcon
    exact absurd hcon.1 (by norm_num)

/-- Witness for C7: the claim's own 200 × 100 raster in a 400 × 100 label,
with the positivity hypotheses discharged. -/
theorem c7_witness :
    (0 : ℚ) < 200 ∧ (0 : ℚ) < 100 ∧
    emit_pixel 150 50 200 100 400 100 = some (50, 50) :=
  ⟨by norm_num, by norm_num,
    (c7_map_display_to_image 150 50 200 100 400 100 (by norm_num) (by norm_num)).2.1⟩

/-- C10: each rotation operation — rotate left by 90°, rotate right by 90°,
reset rotation to 0° — goes through `_reset_pan_and_refresh`, so the state it
re-renders with has pan exactly `(0, 0)` regardless of the pan beforehand,
while the rotation angle is updated modulo 360. -/
theorem c10_rotation_resets_pan (s : AppState) :
    (rotate_left s).pan_x = 0 ∧ (rotate_left s).pan_y = 0 ∧
    (rotate_right s).pan_x = 0 ∧ (rotate_right s).pan_y = 0 ∧
    (reset_rotation s).pan_x = 0 ∧ (reset_rotation s).pan_y = 0 ∧
    (rotate_left s).rotation_angle = (s.rotation_angle - 90) % 360 ∧
    (rotate_right s).rotation_angle = (s.rotation_angle + 90) % 360 ∧
    (reset_rotation s).rotation_angle = 0 :=
  ⟨rfl, rfl, rfl, rfl, rfl, rfl, rfl, rfl, rfl⟩

end VideoComparator
